import Mathlib

/-!
Shallow embedding of the synthetic-stock dApp core contracts
(CollateralVault, SyntheticStock, SmartAccount, DEXRouter, OracleAdapter,
Paymaster) and proofs about the frozen specification claims.

Conventions:
* addresses are natural numbers, with `0` standing for the zero address;
* `uint256` values are `Nat` (none of the verified operations can overflow
  2^256 on the reachable domains considered; Solidity 0.8 checked subtraction
  is modelled by an explicit underflow guard returning an error);
* `int256` values are `Int`;
* a reverting call is an `Except.error` carrying the revert reason; EVM revert
  semantics (all state changes of the frame are rolled back) are modelled by
  the error case carrying no state, the caller keeping the pre-call state;
* external token transfers move exactly the stated amount and fail exactly
  when the sender's balance is insufficient;
* access-control modifiers (`onlyRole`) are modelled by role predicates in the
  state where a claim depends on them, and elided where it does not;
  `nonReentrant` is vacuous in this sequential model.
-/

namespace SyntheticStockDapp

abbrev Address := Nat

/-! ## CollateralVault (src/unnamed/part_000 and part_009, contract CollateralVault) -/

structure VaultState where
  /-- `_userCollateral` mapping -/
  userCollateral : Address → Nat
  /-- `_totalCollateral` -/
  totalCollateral : Nat
  /-- `usdcToken.balanceOf(address(this))`: actual custody held by the vault -/
  vaultBalance : Nat
  /-- `Pausable` flag of the vault -/
  paused : Bool

/-- `isVaultSolvent()`: `usdcToken.balanceOf(address(this)) >= _totalCollateral`. -/
def isVaultSolvent (s : VaultState) : Bool :=
  decide (s.totalCollateral ≤ s.vaultBalance)

/-- `depositCollateral(user, amount)`: pulls `amount` USDC from the calling
contract into the vault and credits `user`.  The external `safeTransferFrom`
moves exactly `amount` into the vault (the caller's side is external to the
vault and does not affect vault custody). -/
def depositCollateral (s : VaultState) (user amount : Nat) :
    Except String VaultState :=
  if s.paused then .error "Pausable: paused"
  else if user = 0 then .error "CollateralVault: user cannot be zero address"
  else if amount = 0 then .error "CollateralVault: amount must be positive"
  else .ok { s with
    userCollateral := fun a => if a = user then s.userCollateral a + amount
                               else s.userCollateral a
    totalCollateral := s.totalCollateral + amount
    vaultBalance := s.vaultBalance + amount }

/-- `withdrawCollateral(user, amount, recipient)`: debits `user` and sends
`amount` USDC out of the vault.  The two checked subtractions and the outgoing
`safeTransfer` are guarded explicitly. -/
def withdrawCollateral (s : VaultState) (user amount recipient : Nat) :
    Except String VaultState :=
  if s.paused then .error "Pausable: paused"
  else if user = 0 then .error "CollateralVault: user cannot be zero address"
  else if recipient = 0 then .error "CollateralVault: recipient cannot be zero address"
  else if amount = 0 then .error "CollateralVault: amount must be positive"
  else if s.userCollateral user < amount then .error "CollateralVault: insufficient collateral"
  else if s.totalCollateral < amount then .error "Panic: arithmetic underflow"
  else if s.vaultBalance < amount then .error "ERC20: transfer amount exceeds balance"
  else .ok { s with
    userCollateral := fun a => if a = user then s.userCollateral a - amount
                               else s.userCollateral a
    totalCollateral := s.totalCollateral - amount
    vaultBalance := s.vaultBalance - amount }

/-- `emergencyWithdraw()`: when paused, sends the caller's whole tracked
balance back to the caller. -/
def emergencyWithdraw (s : VaultState) (sender : Address) :
    Except String VaultState :=
  if ¬ s.paused then .error "Pausable: not paused"
  else if s.userCollateral sender = 0 then .error "CollateralVault: no collateral to withdraw"
  else if s.totalCollateral < s.userCollateral sender then .error "Panic: arithmetic underflow"
  else if s.vaultBalance < s.userCollateral sender then .error "ERC20: transfer amount exceeds balance"
  else .ok { s with
    userCollateral := fun a => if a = sender then 0 else s.userCollateral a
    totalCollateral := s.totalCollateral - s.userCollateral sender
    vaultBalance := s.vaultBalance - s.userCollateral sender }

/-! ## SyntheticStock (src/unnamed/part_010, contract SyntheticStock) -/

/-- `COLLATERAL_RATIO = 150`, the 150% collateralization constant of
SyntheticStock (renamed here). -/
def collateralRatioPct : Nat := 150

/-- `USDC_DECIMALS = 6` -/
def usdcDecimals : Nat := 6

/-- `AAPL_DECIMALS = 18` -/
def aaplDecimals : Nat := 18

/-- `PRICE_DECIMALS = 8` -/
def priceDecimals : Nat := 8

/-- The collateral formula shared by `mint` and `redeem`:
`(aaplAmount * aaplPrice * COLLATERAL_RATIO) /
 (100 * 10**(AAPL_DECIMALS + PRICE_DECIMALS - USDC_DECIMALS))`. -/
def requiredCollateral (aaplAmount aaplPrice : Nat) : Nat :=
  (aaplAmount * aaplPrice * collateralRatioPct) /
    (100 * 10 ^ (aaplDecimals + priceDecimals - usdcDecimals))

/-- `fee = (aaplAmount * mintFee) / 10000` inside `SyntheticStock.mint`
(the same formula is applied to the collateral in `redeem`). -/
def bpsFee (amount feeBps : Nat) : Nat := amount * feeBps / 10000

structure SynthState where
  vault : VaultState
  /-- `userAaplBalance` mapping of SyntheticStock -/
  userAapl : Address → Nat
  /-- `AAPLToken.balanceOf` -/
  aaplBalance : Address → Nat
  /-- `usdcToken.balanceOf(address(syntheticStock))` -/
  synthUsdcBalance : Nat
  /-- `mintFee` in basis points -/
  mintFee : Nat
  /-- `redeemFee` in basis points -/
  redeemFee : Nat
  /-- `OracleAdapter._latestPrice` as observed through `getPrice()` -/
  price : Int
  /-- whether `getPrice()` passes its staleness checks right now -/
  oracleFresh : Bool
  /-- `Pausable` flag of SyntheticStock -/
  synthPaused : Bool
  /-- `Pausable` flag of AAPLToken -/
  tokenPaused : Bool

/-- `netAaplAmount = aaplAmount - fee` inside `mint`. -/
def netMintAmount (s : SynthState) (aaplAmount : Nat) : Nat :=
  aaplAmount - bpsFee aaplAmount s.mintFee

/-- `netReturn = collateralReturned - fee` inside `redeem`. -/
def netRedeemReturn (s : SynthState) (aaplAmount : Nat) : Nat :=
  requiredCollateral aaplAmount s.price.toNat -
    bpsFee (requiredCollateral aaplAmount s.price.toNat) s.redeemFee

/-- The settlement tail of `SyntheticStock.redeem` after its require block:
burn the synthetic tokens (`AAPLToken.burn`), then deposit the net collateral
back into the vault for the user (`usdcToken.approve` +
`collateralVault.depositCollateral`, which pulls the USDC out of the
SyntheticStock contract). -/
def redeemSettle (s : SynthState) (user aaplAmount : Nat) :
    Except String (SynthState × Nat) :=
  if s.tokenPaused then .error "Pausable: paused"
  else if s.synthUsdcBalance < netRedeemReturn s aaplAmount then
    .error "ERC20: transfer amount exceeds balance"
  else
    match depositCollateral s.vault user (netRedeemReturn s aaplAmount) with
    | .error e => .error e
    | .ok v => .ok ({ s with
        vault := v
        aaplBalance := fun a => if a = user then s.aaplBalance a - aaplAmount
                                else s.aaplBalance a
        userAapl := fun a => if a = user then s.userAapl a - aaplAmount
                             else s.userAapl a
        synthUsdcBalance := s.synthUsdcBalance - netRedeemReturn s aaplAmount },
        netRedeemReturn s aaplAmount)

/-- `SyntheticStock.mint(user, aaplAmount)`: computes the required collateral,
charges the mint fee on the synthetic amount, withdraws the collateral from
the vault to the SyntheticStock contract and mints the net synthetic amount
to the user.  Returns the updated state and `collateralUsed`. -/
def mint (s : SynthState) (user aaplAmount : Nat) :
    Except String (SynthState × Nat) :=
  if s.synthPaused then .error "Pausable: paused"
  else if user = 0 then .error "SyntheticStock: invalid user"
  else if aaplAmount = 0 then .error "SyntheticStock: amount must be positive"
  else if ¬ s.oracleFresh then .error "OracleAdapter: price data too old"
  else if ¬ 0 < s.price then .error "SyntheticStock: invalid price"
  else if requiredCollateral aaplAmount s.price.toNat = 0 then
    .error "SyntheticStock: insufficient mint amount"
  else if s.vault.userCollateral user < requiredCollateral aaplAmount s.price.toNat then
    .error "SyntheticStock: insufficient collateral in vault"
  else
    match withdrawCollateral s.vault user (requiredCollateral aaplAmount s.price.toNat) 1 with
    | .error e => .error e
    | .ok v =>
      -- AAPLToken.mint(user, netAaplAmount)
      if s.tokenPaused then .error "Pausable: paused"
      else if netMintAmount s aaplAmount = 0 then
        .error "AAPLToken: mint amount must be positive"
      else .ok ({ s with
        vault := v
        synthUsdcBalance := s.synthUsdcBalance + requiredCollateral aaplAmount s.price.toNat
        aaplBalance := fun a => if a = user then s.aaplBalance a + netMintAmount s aaplAmount
                                else s.aaplBalance a
        userAapl := fun a => if a = user then s.userAapl a + netMintAmount s aaplAmount
                             else s.userAapl a }, requiredCollateral aaplAmount s.price.toNat)

/-- `SyntheticStock.redeem(user, aaplAmount)`: burns the synthetic tokens,
recomputes the collateral at the current price, charges the redeem fee on the
collateral and deposits the net collateral back into the vault for the user.
Returns the updated state and the net collateral returned. -/
def redeem (s : SynthState) (user aaplAmount : Nat) :
    Except String (SynthState × Nat) :=
  if s.synthPaused then .error "Pausable: paused"
  else if user = 0 then .error "SyntheticStock: invalid user"
  else if aaplAmount = 0 then .error "SyntheticStock: amount must be positive"
  else if s.aaplBalance user < aaplAmount then
    .error "SyntheticStock: insufficient AAPL-x balance"
  else if s.userAapl user < aaplAmount then
    .error "SyntheticStock: insufficient user position"
  else if ¬ s.oracleFresh then .error "OracleAdapter: price data too old"
  else if ¬ 0 < s.price then .error "SyntheticStock: invalid price"
  else if requiredCollateral aaplAmount s.price.toNat = 0 then
    .error "SyntheticStock: no collateral to redeem"
  else redeemSettle s user aaplAmount

/-! ## Operation sequences over the vault (for the solvency invariant)

An operation sequence interleaves the vault entry points with the
SyntheticStock entry points that drive them, plus pause toggles (needed to
reach `emergencyWithdraw`) and oracle updates between operations. -/

inductive SysOp where
  | deposit (user amount : Nat)
  | withdraw (user amount recipient : Nat)
  | emergency (sender : Nat)
  | mintOp (user aaplAmount : Nat)
  | redeemOp (user aaplAmount : Nat)
  | pauseVault
  | unpauseVault
  | setOracle (p : Int) (fresh : Bool)

/-- One step of the system: a reverting call (the `Except.error` case) leaves
the state unchanged, per EVM transaction semantics. -/
def stepOp (op : SysOp) (s : SynthState) : SynthState :=
  match op with
  | .deposit u a =>
      match depositCollateral s.vault u a with
      | .ok v => { s with vault := v }
      | .error _ => s
  | .withdraw u a r =>
      match withdrawCollateral s.vault u a r with
      | .ok v => { s with vault := v }
      | .error _ => s
  | .emergency u =>
      match emergencyWithdraw s.vault u with
      | .ok v => { s with vault := v }
      | .error _ => s
  | .mintOp u a =>
      match mint s u a with
      | .ok p => p.1
      | .error _ => s
  | .redeemOp u a =>
      match redeem s u a with
      | .ok p => p.1
      | .error _ => s
  | .pauseVault => { s with vault := { s.vault with paused := true } }
  | .unpauseVault => { s with vault := { s.vault with paused := false } }
  | .setOracle p fresh => { s with price := p, oracleFresh := fresh }

/-- Run a finite sequence of operations. -/
def runOps (ops : List SysOp) (s : SynthState) : SynthState :=
  ops.foldl (fun st op => stepOp op st) s

/-- The solvency predicate of the claim:
`getTotalCollateral() ≤` actual custody held by the vault. -/
def vaultSolvent (s : VaultState) : Prop :=
  s.totalCollateral ≤ s.vaultBalance

instance (s : VaultState) : Decidable (vaultSolvent s) := by
  unfold vaultSolvent; infer_instance

/-! ## SmartAccount recovery and batch execution (src/unnamed/part_009,
contract SmartAccount) -/

structure AccountState where
  owner : Address
  /-- the three guardians granted `GUARDIAN_ROLE` at construction -/
  guardians : List Address
  /-- `activeRecovery.newOwner` -/
  recNewOwner : Address
  /-- `activeRecovery.confirmations` -/
  recConfirmations : Nat
  /-- `activeRecovery.confirmed` mapping.  Solidity `delete` on a struct
  resets its value members but leaves nested mappings untouched, so this
  field survives `delete activeRecovery`. -/
  recConfirmed : Address → Bool
  /-- `activeRecovery.deadline` (0 = no active recovery) -/
  recDeadline : Nat
  /-- `block.timestamp` -/
  now : Nat

/-- `GUARDIAN_THRESHOLD = 2` -/
def guardianThreshold : Nat := 2

/-- `RECOVERY_PERIOD = 3 days` -/
def recoveryPeriod : Nat := 3 * 86400

/-- `initiateRecovery(newOwner)` called by `sender`. -/
def initiateRecovery (s : AccountState) (sender newOwner : Address) :
    Except String AccountState :=
  if sender ∉ s.guardians then .error "AccessControl: account is missing role"
  else if newOwner = 0 then .error "SmartAccount: invalid new owner"
  else if s.recDeadline ≠ 0 then .error "SmartAccount: recovery already active"
  else .ok { s with
    recNewOwner := newOwner
    recConfirmations := 1
    recConfirmed := fun a => if a = sender then true else s.recConfirmed a
    recDeadline := s.now + recoveryPeriod }

/-- `confirmRecovery()` called by `sender`.  When the threshold is reached the
ownership changes and `delete activeRecovery` clears the value members of the
struct — but not the `confirmed` mapping. -/
def confirmRecovery (s : AccountState) (sender : Address) :
    Except String AccountState :=
  if sender ∉ s.guardians then .error "AccessControl: account is missing role"
  else if s.recDeadline = 0 then .error "SmartAccount: no active recovery"
  else if ¬ s.now < s.recDeadline then .error "SmartAccount: recovery expired"
  else if s.recConfirmed sender then .error "SmartAccount: already confirmed"
  else if guardianThreshold ≤ s.recConfirmations + 1 then
    .ok { s with
      owner := s.recNewOwner
      recNewOwner := 0
      recConfirmations := 0
      recConfirmed := fun a => if a = sender then true else s.recConfirmed a
      recDeadline := 0 }
  else
    .ok { s with
      recConfirmations := s.recConfirmations + 1
      recConfirmed := fun a => if a = sender then true else s.recConfirmed a }

/-- `cancelRecovery()` called by `sender` (owner only); `delete activeRecovery`
again leaves the `confirmed` mapping untouched. -/
def cancelRecovery (s : AccountState) (sender : Address) :
    Except String AccountState :=
  if sender ≠ s.owner then .error "SmartAccount: only owner"
  else if s.recDeadline = 0 then .error "SmartAccount: no active recovery"
  else .ok { s with recNewOwner := 0, recConfirmations := 0, recDeadline := 0 }

/-- Apply an account entry point, keeping the prior state on revert. -/
def applyOk (f : AccountState → Except String AccountState) (s : AccountState) :
    AccountState :=
  match f s with
  | .ok s1 => s1
  | .error _ => s

/-- Observe the revert reason of an account entry point, if any. -/
def errorOf {α : Type} (r : Except String α) : Option String :=
  match r with
  | .ok _ => none
  | .error e => some e

/-! ### executeBatch

`executeBatch(targets, values, callData)` performs one low-level `call` per
entry and records a per-call success flag; a failed sub-call rolls back only
its own frame (the `call` returns `false`) and the loop continues.  The
behaviour of each external call is an environment parameter. -/

structure BatchCall where
  target : Address
  value : Nat
  payload : Nat

/-- Zip the three calldata arrays into sub-calls (lengths already checked). -/
def zipCalls : List Address → List Nat → List Nat → List BatchCall
  | t :: ts, v :: vs, p :: ps => ⟨t, v, p⟩ :: zipCalls ts vs ps
  | _, _, _ => []

/-- The loop body of `executeBatch`: each sub-call either succeeds and updates
the world state, or fails and leaves it unchanged, never aborting the loop. -/
def execCalls {σ : Type} (env : BatchCall → σ → Option σ) :
    List BatchCall → σ → σ × List Bool
  | [], s => (s, [])
  | c :: cs, s =>
    match env c s with
    | some s1 =>
      let r := execCalls env cs s1
      (r.1, true :: r.2)
    | none =>
      let r := execCalls env cs s
      (r.1, false :: r.2)

/-- `executeBatch(targets, values, callData)`. -/
def executeBatch {σ : Type} (env : BatchCall → σ → Option σ)
    (targets : List Address) (values : List Nat) (payloads : List Nat)
    (s : σ) : Except String (σ × List Bool) :=
  if targets.length = values.length ∧ values.length = payloads.length then
    .ok (execCalls env (zipCalls targets values payloads) s)
  else .error "SmartAccount: length mismatch"

/-! ## OracleAdapter (src/contracts/contracts/OracleAdapter.sol) -/

structure OracleState where
  /-- `_latestPrice` (1e8 scale, `int256`) -/
  latestPrice : Int
  /-- `_lastUpdated` -/
  lastUpdated : Nat
  /-- `_updateCount` -/
  updateCount : Nat
  /-- `block.timestamp` -/
  now : Nat

/-- `MIN_UPDATE_INTERVAL = 1 minutes` -/
def minUpdateInterval : Nat := 60

/-- `MAX_PRICE_CHANGE = 50e8` (50% per update, 1e8 scale) -/
def maxPriceChange : Int := 50 * 10 ^ 8

/-- `MIN_PRICE = 1e8` -/
def minPrice : Int := 10 ^ 8

/-- `MAX_PRICE = 10000e8` -/
def maxPrice : Int := 10000 * 10 ^ 8

/-- `|newPrice - _latestPrice|` as computed by the conditional in `pushPrice`. -/
def priceDelta (oldPrice newPrice : Int) : Int :=
  if oldPrice < newPrice then newPrice - oldPrice else oldPrice - newPrice

/-- `(_latestPrice * MAX_PRICE_CHANGE) / 100e8`.  Solidity `int256` division
truncates toward zero while Lean's `Int` division rounds down; the two agree
here because `_latestPrice` is positive in every reachable oracle state
(initialized to 150e8 and clamped to `[MIN_PRICE, MAX_PRICE]` on update). -/
def maxAllowedChange (oldPrice : Int) : Int :=
  oldPrice * maxPriceChange / (100 * 10 ^ 8)

/-- `pushPrice(newPrice)` (operator capability checked by the caller). -/
def pushPrice (s : OracleState) (newPrice : Int) : Except String OracleState :=
  if ¬ 0 < newPrice then .error "OracleAdapter: price must be positive"
  else if newPrice < minPrice then .error "OracleAdapter: price below minimum"
  else if maxPrice < newPrice then .error "OracleAdapter: price above maximum"
  else if s.now < s.lastUpdated + minUpdateInterval then
    .error "OracleAdapter: update too frequent"
  else if 0 < s.updateCount ∧
      maxAllowedChange s.latestPrice < priceDelta s.latestPrice newPrice then
    .error "OracleAdapter: price change too large"
  else .ok { s with
    latestPrice := newPrice
    lastUpdated := s.now
    updateCount := s.updateCount + 1 }

/-! ## DEXRouter (src/unnamed/part_007, contract DEXRouter)

Token balances are a map `token → holder → balance`.  The OKX aggregator is
an external collaborator: its behaviour during one swap is an environment
value saying whether the low-level call succeeds and how many output-token
units it credits to the router (taking the approved net input in exchange). -/

structure RouterState where
  /-- `balanceOf`: token address → holder address → balance -/
  balances : Address → Address → Nat
  /-- `allowedTokens` whitelist -/
  allowed : Address → Bool
  /-- `AA_ROLE` holders -/
  aaRole : Address → Bool
  /-- `routerFee` in basis points -/
  routerFee : Nat
  /-- `Pausable` flag -/
  paused : Bool
  /-- `address(this)` of the router -/
  selfAddr : Address
  /-- `usdcToken` address -/
  usdcToken : Address

structure RouterEnv where
  /-- does the low-level call to the aggregator return success? -/
  aggSuccess : Bool
  /-- output-token units the aggregator credits to the router -/
  aggOut : Nat

structure RouterWorld where
  router : RouterState
  vault : VaultState

/-- Move `amount` of `token` from `src` to `dst` (balance already checked). -/
def moveTokens (r : RouterState) (token src dst amount : Nat) : RouterState :=
  { r with balances := fun t a =>
      if t = token ∧ a = src then r.balances t a - amount
      else if t = token ∧ a = dst then r.balances t a + amount
      else r.balances t a }

/-- Effect of the aggregator call: it consumes the approved `netIn` of
`tokenIn` from the router and credits `env.aggOut` of `tokenOut` to it. -/
def aggregatorEffect (env : RouterEnv) (r : RouterState)
    (tokenIn tokenOut netIn : Nat) : RouterState :=
  let r1 := { r with balances := fun t a =>
      if t = tokenIn ∧ a = r.selfAddr then r.balances t a - netIn
      else r.balances t a }
  { r1 with balances := fun t a =>
      if t = tokenOut ∧ a = r1.selfAddr then r1.balances t a + env.aggOut
      else r1.balances t a }

/-- The output-token balance delta `swap` measures around the aggregator
call, for a router state `r1` as of just after the input transfer. -/
def measuredDelta (env : RouterEnv) (r1 : RouterState)
    (tokenIn tokenOut netIn : Nat) : Nat :=
  (aggregatorEffect env r1 tokenIn tokenOut netIn).balances tokenOut r1.selfAddr
    - r1.balances tokenOut r1.selfAddr

/-- `DEXRouter.swap(tokenIn, tokenOut, amountIn, minAmountOut, swapData,
recipient)` called by `caller`. -/
def swap (env : RouterEnv) (w : RouterWorld)
    (caller tokenIn tokenOut amountIn minAmountOut recipient : Nat) :
    Except String (RouterWorld × Nat) :=
  let r := w.router
  if r.paused then .error "Pausable: paused"
  else if ¬ r.aaRole caller then .error "AccessControl: account is missing role"
  else if ¬ r.allowed tokenIn then .error "DEXRouter: input token not allowed"
  else if ¬ r.allowed tokenOut then .error "DEXRouter: output token not allowed"
  else if amountIn = 0 then .error "DEXRouter: amount must be positive"
  else if recipient = 0 then .error "DEXRouter: invalid recipient"
  else if r.balances tokenIn caller < amountIn then
    .error "ERC20: transfer amount exceeds balance"
  else
    let r1 := moveTokens r tokenIn caller r.selfAddr amountIn
    let fee := amountIn * r.routerFee / 10000
    let netAmountIn := amountIn - fee
    if ¬ env.aggSuccess then .error "DEXRouter: swap failed"
    else
      let outputBalanceBefore := r1.balances tokenOut r1.selfAddr
      let r2 := aggregatorEffect env r1 tokenIn tokenOut netAmountIn
      let amountOut := r2.balances tokenOut r1.selfAddr - outputBalanceBefore
      if amountOut < minAmountOut then
        .error "DEXRouter: insufficient output amount"
      else
        let r3 := moveTokens r2 tokenOut r.selfAddr recipient amountOut
        .ok ({ w with router := r3 }, amountOut)

/-- `DEXRouter.swapToUSDCAndDeposit(tokenIn, amountIn, minUsdcOut, swapData,
user)` called by `caller`: swap to USDC, then deposit the realized USDC into
the CollateralVault credited to `user`. -/
def swapToUSDCAndDeposit (env : RouterEnv) (w : RouterWorld)
    (caller tokenIn amountIn minUsdcOut user : Nat) :
    Except String (RouterWorld × Nat) :=
  let r := w.router
  if r.paused then .error "Pausable: paused"
  else if ¬ r.aaRole caller then .error "AccessControl: account is missing role"
  else if ¬ r.allowed tokenIn then .error "DEXRouter: input token not allowed"
  else if amountIn = 0 then .error "DEXRouter: amount must be positive"
  else if user = 0 then .error "DEXRouter: invalid user"
  else if tokenIn = r.usdcToken then .error "DEXRouter: use depositUSDC for USDC"
  else if r.balances tokenIn caller < amountIn then
    .error "ERC20: transfer amount exceeds balance"
  else
    let r1 := moveTokens r tokenIn caller r.selfAddr amountIn
    let fee := amountIn * r.routerFee / 10000
    let netAmountIn := amountIn - fee
    if ¬ env.aggSuccess then .error "DEXRouter: swap failed"
    else
      let usdcBalanceBefore := r1.balances r.usdcToken r1.selfAddr
      let r2 := aggregatorEffect env r1 tokenIn r.usdcToken netAmountIn
      let usdcReceived := r2.balances r.usdcToken r1.selfAddr - usdcBalanceBefore
      if usdcReceived < minUsdcOut then
        .error "DEXRouter: insufficient USDC received"
      else
        match depositCollateral w.vault user usdcReceived with
        | .error e => .error e
        | .ok v =>
          let r3 := { r2 with balances := fun t a =>
              if t = r.usdcToken ∧ a = r.selfAddr then r2.balances t a - usdcReceived
              else r2.balances t a }
          .ok ({ router := r3, vault := v }, usdcReceived)

/-- `DEXRouter.swapUSDCToToken(tokenOut, usdcAmount, minTokenOut, swapData,
recipient)` called by `caller`. -/
def swapUSDCToToken (env : RouterEnv) (w : RouterWorld)
    (caller tokenOut usdcAmount minTokenOut recipient : Nat) :
    Except String (RouterWorld × Nat) :=
  let r := w.router
  if r.paused then .error "Pausable: paused"
  else if ¬ r.aaRole caller then .error "AccessControl: account is missing role"
  else if ¬ r.allowed tokenOut then .error "DEXRouter: output token not allowed"
  else if usdcAmount = 0 then .error "DEXRouter: amount must be positive"
  else if recipient = 0 then .error "DEXRouter: invalid recipient"
  else if tokenOut = r.usdcToken then
    -- direct transfer path, no swap and no slippage check
    if r.balances r.usdcToken caller < usdcAmount then
      .error "ERC20: transfer amount exceeds balance"
    else
      .ok ({ w with router := moveTokens r r.usdcToken caller recipient usdcAmount },
           usdcAmount)
  else if r.balances r.usdcToken caller < usdcAmount then
    .error "ERC20: transfer amount exceeds balance"
  else
    let r1 := moveTokens r r.usdcToken caller r.selfAddr usdcAmount
    if ¬ env.aggSuccess then .error "DEXRouter: swap failed"
    else
      let outputBalanceBefore := r1.balances tokenOut r1.selfAddr
      let r2 := aggregatorEffect env r1 r.usdcToken tokenOut usdcAmount
      let tokenAmountOut := r2.balances tokenOut r1.selfAddr - outputBalanceBefore
      if tokenAmountOut < minTokenOut then
        .error "DEXRouter: insufficient output amount"
      else
        let r3 := moveTokens r2 tokenOut r.selfAddr recipient tokenAmountOut
        .ok ({ w with router := r3 }, tokenAmountOut)

/-- The router world a caller observes after an entry point: on revert the
EVM rolls the frame back, so the pre-call world is kept. -/
def runRouterCall (res : Except String (RouterWorld × Nat)) (w : RouterWorld) :
    RouterWorld :=
  match res with
  | .ok p => p.1
  | .error _ => w

/-! ## Paymaster (src/contracts/contracts/Paymaster.sol) -/

structure PayState where
  /-- `userGasUsed` mapping -/
  userGasUsed : Address → Nat
  /-- `lastResetTime` mapping -/
  lastResetTime : Address → Nat
  /-- `usdcToken.balanceOf` -/
  usdcBal : Address → Nat
  /-- `okbToken.balanceOf` -/
  okbBal : Address → Nat
  /-- `usdcToGasRate` (wei per USDC unit) -/
  usdcToGasRate : Nat
  /-- `okbToGasRate` (wei per OKB unit) -/
  okbToGasRate : Nat
  /-- `gasReserve` -/
  gasReserve : Nat
  /-- `minimumGasReserve` -/
  minimumGasReserve : Nat
  /-- `block.timestamp` -/
  now : Nat

/-- `RATE_LIMIT_PERIOD = 1 hours` -/
def rateLimitPeriod : Nat := 3600

/-- `MAX_GAS_PER_HOUR = 0.01 ether` -/
def maxGasPerHour : Nat := 10 ^ 16

/-- `_isRateLimited(user, gasCost)`: fixed-size time buckets; a strictly newer
bucket than the user's last reset means the limit is considered reset. -/
def isRateLimited (s : PayState) (user gasCost : Nat) : Bool :=
  let currentPeriod := s.now / rateLimitPeriod
  let userLastPeriod := s.lastResetTime user / rateLimitPeriod
  if userLastPeriod < currentPeriod then false
  else decide (maxGasPerHour < s.userGasUsed user + gasCost)

/-- `_updateGasUsage(user, gasCost)`: in a new bucket the usage is replaced by
`gasCost` (reset, not decay); otherwise it accumulates. -/
def updateGasUsage (s : PayState) (user gasCost : Nat) : PayState :=
  let currentPeriod := s.now / rateLimitPeriod
  let userLastPeriod := s.lastResetTime user / rateLimitPeriod
  if userLastPeriod < currentPeriod then
    { s with
      userGasUsed := fun a => if a = user then gasCost else s.userGasUsed a
      lastResetTime := fun a => if a = user then s.now else s.lastResetTime a }
  else
    { s with
      userGasUsed := fun a => if a = user then s.userGasUsed a + gasCost
                              else s.userGasUsed a }

/-- `canPayForGas(user, gasCost)` (the spec's `canSponsor`). -/
def canPayForGas (s : PayState) (user gasCost : Nat) : Bool :=
  if isRateLimited s user gasCost then false
  else
    let usdcAmount := gasCost * s.usdcToGasRate / 10 ^ 18
    let okbAmount := gasCost * s.okbToGasRate / 10 ^ 18
    decide (usdcAmount ≤ s.usdcBal user ∨ okbAmount ≤ s.okbBal user)

/-- `validatePaymasterUserOp` reduced to its validation result: 1 when the
sender is rate-limited or the reserve cannot cover `maxCost` on top of the
minimum, otherwise 0. -/
def validatePaymasterUserOp (s : PayState) (sender maxCost : Nat) : Nat :=
  if isRateLimited s sender maxCost then 1
  else if s.gasReserve < maxCost + s.minimumGasReserve then 1
  else 0

/-! ## Concrete demonstration states used by witnesses and counterexamples -/

/-- The worked mint scenario of the spec: price 150.00 (1.5e10 at 1e8 scale),
mint fee 25 bps, user 7 holding exactly the required 225.00 USDC of vault
collateral. -/
def mintDemoState : SynthState where
  vault := { userCollateral := fun a => if a = 7 then 225000000 else 0
             totalCollateral := 225000000
             vaultBalance := 225000000
             paused := false }
  userAapl := fun _ => 0
  aaplBalance := fun _ => 0
  synthUsdcBalance := 0
  mintFee := 25
  redeemFee := 25
  price := 15000000000
  oracleFresh := true
  synthPaused := false
  tokenPaused := false

/-- Freshly deployed system: empty vault, oracle at 150.00. -/
def sysInitState : SynthState where
  vault := { userCollateral := fun _ => 0
             totalCollateral := 0
             vaultBalance := 0
             paused := false }
  userAapl := fun _ => 0
  aaplBalance := fun _ => 0
  synthUsdcBalance := 0
  mintFee := 25
  redeemFee := 25
  price := 15000000000
  oracleFresh := true
  synthPaused := false
  tokenPaused := false

/-- A sample operation sequence exercising every operation kind. -/
def sysDemoOps : List SysOp :=
  [.deposit 7 500000000, .mintOp 7 (10 ^ 18), .redeemOp 7 (5 * 10 ^ 17),
   .withdraw 7 1000000 7, .setOracle 16000000000 true, .mintOp 7 (10 ^ 17),
   .pauseVault, .emergency 7, .unpauseVault, .deposit 8 42]

/-- Fresh smart account: owner 1, guardians 11, 12, 13, no recovery ever run. -/
def accDemo : AccountState where
  owner := 1
  guardians := [11, 12, 13]
  recNewOwner := 0
  recConfirmations := 0
  recConfirmed := fun _ => false
  recDeadline := 0
  now := 1000

/-- Guardian 11 opens a recovery proposing owner 2. -/
def accDemo1 : AccountState := applyOk (fun s => initiateRecovery s 11 2) accDemo

/-- Guardian 12 confirms: threshold reached, owner becomes 2, proposal
cleared (`delete activeRecovery` leaves the confirmed mapping behind). -/
def accDemo2 : AccountState := applyOk (fun s => confirmRecovery s 12) accDemo1

/-- Guardian 13 opens a second recovery proposing owner 3. -/
def accDemo3 : AccountState := applyOk (fun s => initiateRecovery s 13 3) accDemo2

/-- A batch-call world for `executeBatch`: the world is a counter, a sub-call
with payload 0 fails, any other payload is added to the counter. -/
def demoBatchEnv : BatchCall → Nat → Option Nat :=
  fun c n => if c.payload = 0 then none else some (n + c.payload)

/-- Oracle that has just been initialized (price 150.00, no pushed update). -/
def oracleDemoState : OracleState where
  latestPrice := 15000000000
  lastUpdated := 0
  updateCount := 0
  now := 3600

/-- Router world: token 5 is a whitelisted input token, token 2 is USDC,
caller 9 holds both and has the AA role, router address 1, fee 10 bps. -/
def routerDemoWorld : RouterWorld where
  router := { balances := fun t a =>
                if t = 5 ∧ a = 9 then 1000000 else
                if t = 2 ∧ a = 9 then 1000000 else 0
              allowed := fun t => decide (t = 5 ∨ t = 6 ∨ t = 2)
              aaRole := fun a => decide (a = 9)
              routerFee := 10
              paused := false
              selfAddr := 1
              usdcToken := 2 }
  vault := { userCollateral := fun _ => 0
             totalCollateral := 0
             vaultBalance := 0
             paused := false }

/-- Aggregator behaviour: the call succeeds but realizes only 3 output
units, below every minimum used in the witnesses. -/
def routerDemoEnv : RouterEnv where
  aggSuccess := true
  aggOut := 3

/-- Paymaster state: user 9 has exhausted this hour's allowance at time
5400 s (bucket 1); user 8 last reset in bucket 0 and holds plenty of USDC. -/
def payDemoState : PayState where
  userGasUsed := fun a => if a = 9 then 10 ^ 16 else 0
  lastResetTime := fun a => if a = 9 then 4000 else if a = 8 then 100 else 0
  usdcBal := fun a => if a = 8 then 10 ^ 12 else 0
  okbBal := fun _ => 0
  usdcToGasRate := 1000
  okbToGasRate := 500
  gasReserve := 10 ^ 18
  minimumGasReserve := 10 ^ 17
  now := 5400

/-! ## Solvency preservation lemmas -/

theorem depositCollateral_solvent {s v : VaultState} {u a : Nat}
    (h : depositCollateral s u a = .ok v) (hs : vaultSolvent s) :
    vaultSolvent v := by
  unfold depositCollateral at h
  iterate 3 (split at h <;> try exact Except.noConfusion h)
  cases h
  unfold vaultSolvent at hs ⊢
  dsimp only
  omega

theorem withdrawCollateral_solvent {s v : VaultState} {u a r : Nat}
    (h : withdrawCollateral s u a r = .ok v) (hs : vaultSolvent s) :
    vaultSolvent v := by
  unfold withdrawCollateral at h
  iterate 7 (split at h <;> try exact Except.noConfusion h)
  cases h
  unfold vaultSolvent at hs ⊢
  dsimp only
  omega

theorem emergencyWithdraw_solvent {s v : VaultState} {u : Nat}
    (h : emergencyWithdraw s u = .ok v) (hs : vaultSolvent s) :
    vaultSolvent v := by
  unfold emergencyWithdraw at h
  iterate 4 (split at h <;> try exact Except.noConfusion h)
  cases h
  unfold vaultSolvent at hs ⊢
  dsimp only
  omega

set_option maxHeartbeats 4000000 in
theorem mint_solvent {s : SynthState} {u a : Nat} {r : SynthState × Nat}
    (h : mint s u a = .ok r) (hs : vaultSolvent s.vault) :
    vaultSolvent r.1.vault := by
  unfold mint at h
  iterate 7 (split at h <;> try exact Except.noConfusion h)
  split at h
  · exact Except.noConfusion h
  rename_i v hv
  iterate 2 (split at h <;> try exact Except.noConfusion h)
  cases h
  exact withdrawCollateral_solvent hv hs

set_option maxHeartbeats 4000000 in
theorem redeemSettle_solvent {s : SynthState} {u a : Nat} {r : SynthState × Nat}
    (h : redeemSettle s u a = .ok r) (hs : vaultSolvent s.vault) :
    vaultSolvent r.1.vault := by
  unfold redeemSettle at h
  iterate 2 (split at h <;> try exact Except.noConfusion h)
  split at h
  · exact Except.noConfusion h
  rename_i v hv
  cases h
  exact depositCollateral_solvent hv hs

set_option maxHeartbeats 4000000 in
theorem redeem_solvent {s : SynthState} {u a : Nat} {r : SynthState × Nat}
    (h : redeem s u a = .ok r) (hs : vaultSolvent s.vault) :
    vaultSolvent r.1.vault := by
  unfold redeem at h
  iterate 8 (split at h <;> try exact Except.noConfusion h)
  exact redeemSettle_solvent h hs

theorem stepOp_solvent (op : SysOp) (s : SynthState)
    (hs : vaultSolvent s.vault) : vaultSolvent (stepOp op s).vault := by
  cases op with
  | deposit u a =>
    dsimp only [stepOp]
    split
    · rename_i v hv; exact depositCollateral_solvent hv hs
    · exact hs
  | withdraw u a r =>
    dsimp only [stepOp]
    split
    · rename_i v hv; exact withdrawCollateral_solvent hv hs
    · exact hs
  | emergency u =>
    dsimp only [stepOp]
    split
    · rename_i v hv; exact emergencyWithdraw_solvent hv hs
    · exact hs
  | mintOp u a =>
    dsimp only [stepOp]
    split
    · rename_i p hp; exact mint_solvent hp hs
    · exact hs
  | redeemOp u a =>
    dsimp only [stepOp]
    split
    · rename_i p hp; exact redeem_solvent hp hs
    · exact hs
  | pauseVault => exact hs
  | unpauseVault => exact hs
  | setOracle p f => exact hs

theorem runOps_solvent (ops : List SysOp) (s : SynthState)
    (hs : vaultSolvent s.vault) : vaultSolvent (runOps ops s).vault := by
  induction ops generalizing s with
  | nil => exact hs
  | cons op rest ih => exact ih (stepOp op s) (stepOp_solvent op s hs)

/-- C1: starting from any solvent state (in particular the freshly deployed
vault), after every finite sequence of deposit/withdraw/emergencyWithdraw/
mint/redeem operations (with pause toggles and oracle updates interleaved,
each operation moving exactly its stated token amount), the tracked aggregate
`getTotalCollateral()` is at most the vault's actual USDC custody, so
`isVaultSolvent()` returns true.  Since the sequence is arbitrary, this holds
at every intermediate observation point as well. -/
theorem vault_solvency_invariant (ops : List SysOp) (s : SynthState)
    (hs : vaultSolvent s.vault) :
    (runOps ops s).vault.totalCollateral ≤ (runOps ops s).vault.vaultBalance ∧
      isVaultSolvent (runOps ops s).vault = true := by
  have h := runOps_solvent ops s hs
  exact ⟨h, decide_eq_true h⟩

/-- C1 witness: the invariant instantiated on the freshly deployed system and
a sample sequence exercising every operation kind. -/
theorem vault_solvency_invariant_witness :
    vaultSolvent sysInitState.vault ∧
      ((runOps sysDemoOps sysInitState).vault.totalCollateral ≤
          (runOps sysDemoOps sysInitState).vault.vaultBalance ∧
        isVaultSolvent (runOps sysDemoOps sysInitState).vault = true) :=
  ⟨by decide, vault_solvency_invariant sysDemoOps sysInitState (by decide)⟩

/-! ## Worked mint scenario and the collateral formula -/

theorem requiredCollateral_eq (a p : Nat) :
    requiredCollateral a p = a * p * 150 / (100 * 10 ^ 20) := rfl

/-- C2 counterexample: at the claim's exact inputs (price 1.5e10, ratio 150,
25 bps fee, request 1e18), the fee `mint` charges — the requested amount
minus the net amount credited to the user — is 2.5e15 synthetic units, not
the claimed 2.5e14. -/
theorem mint_worked_fee_counterexample :
    ((mint mintDemoState 7 (10 ^ 18)).map fun p => 10 ^ 18 - p.1.aaplBalance 7) =
      .ok 2500000000000000 ∧
    (2500000000000000 : Nat) ≠ 250000000000000 := by
  constructor
  · rfl
  · decide

/-- C2 (amended): with oracle price 1.5e10 (1e8 scale), ratio 150 and
mintFee = 25 basis points, `mint(user, 1e18)` computes requiredCollateral =
225,000,000 six-decimal collateral units, a fee of 2.5e15 synthetic units
(0.0025 of a unit), mints netMinted = 0.9975e18 synthetic units to the user,
and returns the 225,000,000 collateral consumed. -/
theorem mint_worked_scenario :
    ((mint mintDemoState 7 (10 ^ 18)).map fun p =>
        (p.2, p.1.aaplBalance 7, p.1.userAapl 7, p.1.vault.userCollateral 7,
          p.1.synthUsdcBalance)) =
      .ok (225000000, 997500000000000000, 997500000000000000, 0, 225000000) ∧
    bpsFee (10 ^ 18) 25 = 2500000000000000 ∧
    10 ^ 18 - bpsFee (10 ^ 18) 25 = 997500000000000000 := by
  refine ⟨rfl, by decide, by decide⟩

/-- Doubling a numerator shifts a floor division by at most one unit:
`2*N / D = 2*(N/D) + (2*(N%D))/D` and the correction term is 0 or 1. -/
theorem double_floor_div (N D : Nat) (hD : 0 < D) :
    2 * N / D = 2 * (N / D) + 2 * (N % D) / D ∧ 2 * (N % D) / D ≤ 1 := by
  constructor
  · conv_lhs => rw [← Nat.div_add_mod N D]
    rw [show 2 * (D * (N / D) + N % D) = 2 * (N % D) + 2 * (N / D) * D by ring]
    rw [Nat.add_mul_div_right _ _ hD]
    ring
  · have h : 2 * (N % D) < 2 * D := by
      have := Nat.mod_lt N hD
      omega
    have := (Nat.div_lt_iff_lt_mul hD).mpr (by omega : 2 * (N % D) < 2 * D)
    omega

/-- C3 counterexample: with requested amount a = 4e11 and price p = 1e8 the
floor in the collateral formula breaks exact linearity: the requirement for
2a at p (and for a at 2p) is 1 collateral unit while twice the requirement
for a at p is 0. -/
theorem requiredCollateral_linear_counterexample :
    requiredCollateral (2 * 400000000000) 100000000 ≠
      2 * requiredCollateral 400000000000 100000000 ∧
    requiredCollateral 400000000000 (2 * 100000000) ≠
      2 * requiredCollateral 400000000000 100000000 := by
  constructor <;> decide

/-- C3 (amended): the required collateral is linear in amount and price up to
the final integer flooring: doubling the price and doubling the amount give
exactly the same requirement, that requirement lies between twice the
original requirement and twice the original requirement plus one, and it
equals exactly twice the original whenever the scaled product divides evenly
(no rounding loss). -/
theorem requiredCollateral_linear (a p : Nat) :
    requiredCollateral a (2 * p) = requiredCollateral (2 * a) p ∧
    2 * requiredCollateral a p ≤ requiredCollateral (2 * a) p ∧
    requiredCollateral (2 * a) p ≤ 2 * requiredCollateral a p + 1 ∧
    (100 * 10 ^ 20 ∣ a * p * collateralRatioPct →
      requiredCollateral (2 * a) p = 2 * requiredCollateral a p) := by
  have hD : 0 < 100 * 10 ^ 20 := by positivity
  have hc : a * p * collateralRatioPct = a * p * 150 := rfl
  simp only [requiredCollateral_eq, hc]
  rw [show a * (2 * p) * 150 = 2 * (a * p * 150) by ring,
      show 2 * a * p * 150 = 2 * (a * p * 150) by ring]
  obtain ⟨heq, hle⟩ := double_floor_div (a * p * 150) (100 * 10 ^ 20) hD
  refine ⟨rfl, ?_, ?_, ?_⟩
  · rw [heq]; exact Nat.le_add_right _ _
  · rw [heq]; exact Nat.add_le_add_left hle _
  · intro hdvd
    obtain ⟨k, hk⟩ := hdvd
    have hmod : a * p * 150 % (100 * 10 ^ 20) = 0 := by
      rw [hk]; exact Nat.mul_mod_right _ _
    rw [heq, hmod]
    simp

/-- C3 witness: at the worked-scenario inputs (a = 1e18, p = 1.5e10) the
scaled product divides evenly, so doubling the amount exactly doubles the
requirement. -/
theorem requiredCollateral_linear_witness :
    100 * 10 ^ 20 ∣ 10 ^ 18 * 15000000000 * collateralRatioPct ∧
    requiredCollateral (2 * 10 ^ 18) 15000000000 =
      2 * requiredCollateral (10 ^ 18) 15000000000 :=
  ⟨⟨225000000, by norm_num [collateralRatioPct]⟩,
   (requiredCollateral_linear (10 ^ 18) 15000000000).2.2.2
     ⟨225000000, by norm_num [collateralRatioPct]⟩⟩

/-- C10: whenever the requested synthetic amount is positive but so small
that `amount * price * 150 < 100 * 10^20` (the required-collateral formula
floors to zero), `mint` reverts with the insufficient-mint-amount error, no
matter how much collateral the user holds in the vault. -/
theorem mint_dust_amount_fails (s : SynthState) (user aaplAmount : Nat)
    (hpause : s.synthPaused = false) (huser : user ≠ 0) (hamt : aaplAmount ≠ 0)
    (hfresh : s.oracleFresh = true) (hprice : 0 < s.price)
    (hsmall : aaplAmount * s.price.toNat * collateralRatioPct < 100 * 10 ^ 20) :
    mint s user aaplAmount = .error "SyntheticStock: insufficient mint amount" := by
  have hzero : requiredCollateral aaplAmount s.price.toNat = 0 := by
    rw [requiredCollateral_eq]
    exact Nat.div_eq_of_lt hsmall
  unfold mint
  simp [hpause, huser, hamt, hfresh, hprice, hzero]

/-- C10 witness: requesting 1 wei of synthetic at price 150.00 fails with the
insufficient-mint-amount error even though user 7 holds 225 USDC of vault
collateral. -/
theorem mint_dust_amount_fails_witness :
    mintDemoState.synthPaused = false ∧ (7 : Nat) ≠ 0 ∧ (1 : Nat) ≠ 0 ∧
    mintDemoState.oracleFresh = true ∧ 0 < mintDemoState.price ∧
    1 * mintDemoState.price.toNat * collateralRatioPct < 100 * 10 ^ 20 ∧
    mintDemoState.vault.userCollateral 7 = 225000000 ∧
    mint mintDemoState 7 1 = .error "SyntheticStock: insufficient mint amount" :=
  ⟨rfl, by decide, by decide, rfl, by decide, by decide, by decide,
   mint_dust_amount_fails mintDemoState 7 1 rfl (by decide) (by decide) rfl
     (by decide) (by decide)⟩

/-! ## Recovery theorems -/

/-- C4 (amended): opening a recovery proposal (the state with exactly one
confirmation) never changes the account owner; and a confirmRecovery call
before the proposal's deadline by a second distinct guardian whose stored
confirmed flag is not already set — in particular, by any second guardian
during the account's first recovery — reaches the 2-of-3 threshold: the
owner becomes the proposed new owner and the active proposal is cleared. -/
theorem recovery_two_of_three (s : AccountState) :
    (∀ sender newOwner s1, initiateRecovery s sender newOwner = .ok s1 →
      s1.owner = s.owner ∧ s1.recConfirmations = 1) ∧
    (∀ g, g ∈ s.guardians → s.recDeadline ≠ 0 → s.now < s.recDeadline →
      s.recConfirmed g = false → s.recConfirmations = 1 →
      ∃ s2, confirmRecovery s g = .ok s2 ∧ s2.owner = s.recNewOwner ∧
        s2.recDeadline = 0) := by
  constructor
  · intro sender newOwner s1 h
    unfold initiateRecovery at h
    iterate 3 (split at h <;> try exact Except.noConfusion h)
    cases h
    exact ⟨rfl, rfl⟩
  · intro g hg hdl hnow hconf hcount
    unfold confirmRecovery
    rw [if_neg (not_not_intro hg), if_neg hdl, if_neg (not_not_intro hnow),
        if_neg (by simp [hconf]), hcount,
        if_pos (by norm_num [guardianThreshold])]
    exact ⟨_, rfl, rfl, rfl⟩

/-- C4 witness: on the account's first recovery (guardian 11 proposed owner
2), guardian 12's confirmation before the deadline makes 2 the owner and
clears the proposal. -/
theorem recovery_two_of_three_witness :
    (12 : Nat) ∈ accDemo1.guardians ∧ accDemo1.recDeadline ≠ 0 ∧
    accDemo1.now < accDemo1.recDeadline ∧ accDemo1.recConfirmed 12 = false ∧
    accDemo1.recConfirmations = 1 ∧
    (∃ s2, confirmRecovery accDemo1 12 = .ok s2 ∧
      s2.owner = accDemo1.recNewOwner ∧ s2.recDeadline = 0) :=
  ⟨by decide, by decide, by decide, by decide, by decide,
   (recovery_two_of_three accDemo1).2 12 (by decide) (by decide) (by decide)
     (by decide) (by decide)⟩

/-- C4 counterexample: a reachable state refuting the claim as stated.
After the first recovery executed (guardians 11 and 12 confirmed, owner
became 2) guardian 13 opens a fresh proposal for owner 3; guardian 12 — a
distinct second guardian acting before the deadline on a proposal with
exactly one confirmation — is rejected with the already-confirmed error and
the owner stays 2. -/
theorem recovery_two_of_three_counterexample :
    accDemo3.recDeadline ≠ 0 ∧ accDemo3.now < accDemo3.recDeadline ∧
    (12 : Nat) ∈ accDemo3.guardians ∧ (12 : Nat) ≠ 13 ∧
    accDemo3.recConfirmations = 1 ∧ accDemo3.recNewOwner = 3 ∧
    errorOf (confirmRecovery accDemo3 12) = some "SmartAccount: already confirmed" ∧
    (applyOk (fun s => confirmRecovery s 12) accDemo3).owner = 2 := by
  refine ⟨by decide, by decide, by decide, by decide, by decide, by decide,
    by decide, by decide⟩

/-- C9: clearing the active recovery (threshold execution or owner
cancellation) leaves the per-guardian confirmed flags set, and any later
confirmRecovery by a guardian whose flag is set fails with the
already-confirmed error, no matter that the open proposal is new. -/
theorem recovery_confirmed_flags_permanent (s : AccountState) :
    (∀ g s1, confirmRecovery s g = .ok s1 → ∀ a,
      s.recConfirmed a = true → s1.recConfirmed a = true) ∧
    (∀ sender s1, cancelRecovery s sender = .ok s1 →
      s1.recConfirmed = s.recConfirmed) ∧
    (∀ g, g ∈ s.guardians → s.recDeadline ≠ 0 → s.now < s.recDeadline →
      s.recConfirmed g = true →
      confirmRecovery s g = .error "SmartAccount: already confirmed") := by
  refine ⟨?_, ?_, ?_⟩
  · intro g s1 h a ha
    unfold confirmRecovery at h
    iterate 4 (split at h <;> try exact Except.noConfusion h)
    split at h <;>
      (cases h
       dsimp only
       split
       · rfl
       · exact ha)
  · intro sender s1 h
    unfold cancelRecovery at h
    iterate 2 (split at h <;> try exact Except.noConfusion h)
    cases h
    rfl
  · intro g hg hdl hnow hconf
    unfold confirmRecovery
    rw [if_neg (not_not_intro hg), if_neg hdl, if_neg (not_not_intro hnow),
        if_pos hconf]

/-- C9 witness: in the reachable state where guardian 12 confirmed the first
(executed) recovery and guardian 13 has opened a second proposal, guardian
12's confirmation is rejected with the already-confirmed error. -/
theorem recovery_confirmed_flags_permanent_witness :
    (12 : Nat) ∈ accDemo3.guardians ∧ accDemo3.recDeadline ≠ 0 ∧
    accDemo3.now < accDemo3.recDeadline ∧ accDemo3.recConfirmed 12 = true ∧
    confirmRecovery accDemo3 12 = .error "SmartAccount: already confirmed" :=
  ⟨by decide, by decide, by decide, by decide,
   (recovery_confirmed_flags_permanent accDemo3).2.2 12 (by decide) (by decide)
     (by decide) (by decide)⟩

/-! ## Batch execution -/

/-- C5: a 3-element `executeBatch` whose second sub-call fails while the
first and third succeed does not abort: the first and third sub-calls'
effects are applied in order and the returned success flags are
[true, false, true]. -/
theorem executeBatch_non_atomic {σ : Type} (env : BatchCall → σ → Option σ)
    (t1 t2 t3 v1 v2 v3 p1 p2 p3 : Nat) (s s1 s3 : σ)
    (h1 : env ⟨t1, v1, p1⟩ s = some s1)
    (h2 : env ⟨t2, v2, p2⟩ s1 = none)
    (h3 : env ⟨t3, v3, p3⟩ s1 = some s3) :
    executeBatch env [t1, t2, t3] [v1, v2, v3] [p1, p2, p3] s =
      .ok (s3, [true, false, true]) := by
  simp [executeBatch, zipCalls, execCalls, h1, h2, h3]

/-- C5 witness: in the counter world, the batch [add 5, fail, add 7] from 0
ends at 12 with flags [true, false, true]. -/
theorem executeBatch_non_atomic_witness :
    demoBatchEnv ⟨1, 0, 5⟩ 0 = some 5 ∧ demoBatchEnv ⟨2, 0, 0⟩ 5 = none ∧
    demoBatchEnv ⟨3, 0, 7⟩ 5 = some 12 ∧
    executeBatch demoBatchEnv [1, 2, 3] [0, 0, 0] [5, 0, 7] 0 =
      .ok (12, [true, false, true]) :=
  ⟨by decide, by decide, by decide,
   executeBatch_non_atomic demoBatchEnv 1 2 3 0 0 0 5 0 7 0 5 12 (by decide)
     (by decide) (by decide)⟩

/-! ## Oracle rate limiting and bounds -/

/-- C6: `pushPrice` succeeds exactly when the new price lies in
[MIN_PRICE, MAX_PRICE] (both boundaries succeed, anything outside — which
subsumes nonpositive prices — fails), at least MIN_UPDATE_INTERVAL has
elapsed since the previously accepted update, and — skipped on the very
first update — the absolute change does not exceed the allowed maximum
derived from MAX_PRICE_CHANGE; on success the stored price point is
replaced by the new price at the current time and updateCount is
incremented. -/
theorem pushPrice_spec (s : OracleState) (p : Int) :
    ((∃ s1, pushPrice s p = .ok s1) ↔
      (minPrice ≤ p ∧ p ≤ maxPrice ∧
        s.lastUpdated + minUpdateInterval ≤ s.now ∧
        (s.updateCount = 0 ∨
          priceDelta s.latestPrice p ≤ maxAllowedChange s.latestPrice))) ∧
    ∀ s1, pushPrice s p = .ok s1 →
      s1.latestPrice = p ∧ s1.lastUpdated = s.now ∧
      s1.updateCount = s.updateCount + 1 := by
  constructor
  · constructor
    · rintro ⟨s1, h⟩
      unfold pushPrice at h
      iterate 5 (split at h <;> try exact Except.noConfusion h)
      rename_i h1 h2 h3 h4 h5
      refine ⟨by omega, by omega, by omega, ?_⟩
      by_cases hc : s.updateCount = 0
      · exact Or.inl hc
      · refine Or.inr (not_lt.mp fun hgt => h5 ⟨Nat.pos_of_ne_zero hc, hgt⟩)
    · rintro ⟨hmin, hmax, hint, hrest⟩
      have h0 : (0 : Int) < p := lt_of_lt_of_le (by norm_num [minPrice]) hmin
      have hc : ¬ (0 < s.updateCount ∧
          maxAllowedChange s.latestPrice < priceDelta s.latestPrice p) := by
        rintro ⟨hpos, hgt⟩
        rcases hrest with h | h
        · omega
        · exact absurd hgt (not_lt.mpr h)
      refine ⟨OracleState.mk p s.now (s.updateCount + 1) s.now, ?_⟩
      unfold pushPrice
      rw [if_neg (not_not_intro h0), if_neg (not_lt.mpr hmin),
          if_neg (not_lt.mpr hmax), if_neg (not_lt.mpr hint), if_neg hc]
  · intro s1 h
    unfold pushPrice at h
    iterate 5 (split at h <;> try exact Except.noConfusion h)
    cases h
    exact ⟨rfl, rfl, rfl⟩

/-- C6 witness: on the freshly initialized oracle (price 150.00, first
update, one hour elapsed), pushing exactly MIN_PRICE succeeds and the stored
point is replaced with updateCount incremented. -/
theorem pushPrice_spec_witness :
    (∃ s1, pushPrice oracleDemoState minPrice = .ok s1) ∧
    (∀ s1, pushPrice oracleDemoState minPrice = .ok s1 →
      s1.latestPrice = minPrice ∧ s1.lastUpdated = oracleDemoState.now ∧
      s1.updateCount = oracleDemoState.updateCount + 1) :=
  ⟨(pushPrice_spec oracleDemoState minPrice).1.mpr
      ⟨le_refl _, by decide, by decide, Or.inl rfl⟩,
   (pushPrice_spec oracleDemoState minPrice).2⟩

/-! ## Router slippage protection -/

/-- C7: for each swap entry point — the generic `swap`, the
token-to-collateral `swapToUSDCAndDeposit`, and the collateral-to-token
`swapUSDCToToken` — whenever the aggregator call goes through but the
realized output measured by balance delta is below the caller-supplied
minimum, the call reverts with the slippage error, and by revert semantics
the router world the caller observes (all balances and the vault state) is
unchanged. -/
theorem dexRouter_slippage_reverts (env : RouterEnv) (w : RouterWorld) :
    (∀ caller tokenIn tokenOut amountIn minAmountOut recipient,
      w.router.paused = false → w.router.aaRole caller = true →
      w.router.allowed tokenIn = true → w.router.allowed tokenOut = true →
      amountIn ≠ 0 → recipient ≠ 0 →
      amountIn ≤ w.router.balances tokenIn caller →
      env.aggSuccess = true →
      measuredDelta env (moveTokens w.router tokenIn caller w.router.selfAddr amountIn)
          tokenIn tokenOut (amountIn - amountIn * w.router.routerFee / 10000) <
        minAmountOut →
      swap env w caller tokenIn tokenOut amountIn minAmountOut recipient =
        .error "DEXRouter: insufficient output amount" ∧
      runRouterCall
          (swap env w caller tokenIn tokenOut amountIn minAmountOut recipient) w = w) ∧
    (∀ caller tokenIn amountIn minUsdcOut user,
      w.router.paused = false → w.router.aaRole caller = true →
      w.router.allowed tokenIn = true →
      amountIn ≠ 0 → user ≠ 0 → tokenIn ≠ w.router.usdcToken →
      amountIn ≤ w.router.balances tokenIn caller →
      env.aggSuccess = true →
      measuredDelta env (moveTokens w.router tokenIn caller w.router.selfAddr amountIn)
          tokenIn w.router.usdcToken (amountIn - amountIn * w.router.routerFee / 10000) <
        minUsdcOut →
      swapToUSDCAndDeposit env w caller tokenIn amountIn minUsdcOut user =
        .error "DEXRouter: insufficient USDC received" ∧
      runRouterCall
          (swapToUSDCAndDeposit env w caller tokenIn amountIn minUsdcOut user) w = w) ∧
    (∀ caller tokenOut usdcAmount minTokenOut recipient,
      w.router.paused = false → w.router.aaRole caller = true →
      w.router.allowed tokenOut = true →
      usdcAmount ≠ 0 → recipient ≠ 0 → tokenOut ≠ w.router.usdcToken →
      usdcAmount ≤ w.router.balances w.router.usdcToken caller →
      env.aggSuccess = true →
      measuredDelta env
          (moveTokens w.router w.router.usdcToken caller w.router.selfAddr usdcAmount)
          w.router.usdcToken tokenOut usdcAmount < minTokenOut →
      swapUSDCToToken env w caller tokenOut usdcAmount minTokenOut recipient =
        .error "DEXRouter: insufficient output amount" ∧
      runRouterCall
          (swapUSDCToToken env w caller tokenOut usdcAmount minTokenOut recipient) w
        = w) := by
  refine ⟨?_, ?_, ?_⟩
  · intro caller tokenIn tokenOut amountIn minAmountOut recipient
      hpause haa hin hout hamt hrec hbal hagg hdelta
    simp only [measuredDelta] at hdelta
    have herr : swap env w caller tokenIn tokenOut amountIn minAmountOut recipient =
        .error "DEXRouter: insufficient output amount" := by
      unfold swap
      simp only [hpause, haa, hin, hout, hamt, hrec, hagg, Nat.not_lt.mpr hbal,
        Bool.false_eq_true, not_true, not_false_eq_true, if_false, if_true,
        ite_false, ite_true]
      rw [if_pos hdelta]
    exact ⟨herr, by rw [herr]; rfl⟩
  · intro caller tokenIn amountIn minUsdcOut user
      hpause haa hin hamt huser husdc hbal hagg hdelta
    simp only [measuredDelta] at hdelta
    have herr : swapToUSDCAndDeposit env w caller tokenIn amountIn minUsdcOut user =
        .error "DEXRouter: insufficient USDC received" := by
      unfold swapToUSDCAndDeposit
      simp only [hpause, haa, hin, hamt, huser, husdc, hagg, Nat.not_lt.mpr hbal,
        Bool.false_eq_true, not_true, not_false_eq_true, if_false, if_true,
        ite_false, ite_true]
      rw [if_pos hdelta]
    exact ⟨herr, by rw [herr]; rfl⟩
  · intro caller tokenOut usdcAmount minTokenOut recipient
      hpause haa hout hamt hrec htok hbal hagg hdelta
    simp only [measuredDelta] at hdelta
    have herr : swapUSDCToToken env w caller tokenOut usdcAmount minTokenOut recipient =
        .error "DEXRouter: insufficient output amount" := by
      unfold swapUSDCToToken
      simp only [hpause, haa, hout, hamt, hrec, htok, hagg, Nat.not_lt.mpr hbal,
        Bool.false_eq_true, not_true, not_false_eq_true, if_false, if_true,
        ite_false, ite_true]
      rw [if_pos hdelta]
    exact ⟨herr, by rw [herr]; rfl⟩

/-- C7 witness: the aggregator realizes only 3 output units against minimums
of 50, so all three entry points revert with their slippage errors and the
caller-visible world is unchanged. -/
theorem dexRouter_slippage_reverts_witness :
    (swap routerDemoEnv routerDemoWorld 9 5 6 1000 50 9 =
        .error "DEXRouter: insufficient output amount" ∧
      runRouterCall (swap routerDemoEnv routerDemoWorld 9 5 6 1000 50 9)
        routerDemoWorld = routerDemoWorld) ∧
    (swapToUSDCAndDeposit routerDemoEnv routerDemoWorld 9 5 1000 50 9 =
        .error "DEXRouter: insufficient USDC received" ∧
      runRouterCall (swapToUSDCAndDeposit routerDemoEnv routerDemoWorld 9 5 1000 50 9)
        routerDemoWorld = routerDemoWorld) ∧
    (swapUSDCToToken routerDemoEnv routerDemoWorld 9 6 1000 50 9 =
        .error "DEXRouter: insufficient output amount" ∧
      runRouterCall (swapUSDCToToken routerDemoEnv routerDemoWorld 9 6 1000 50 9)
        routerDemoWorld = routerDemoWorld) :=
  ⟨(dexRouter_slippage_reverts routerDemoEnv routerDemoWorld).1 9 5 6 1000 50 9
      (by decide) (by decide) (by decide) (by decide) (by decide) (by decide)
      (by decide) (by decide) (by decide),
   (dexRouter_slippage_reverts routerDemoEnv routerDemoWorld).2.1 9 5 1000 50 9
      (by decide) (by decide) (by decide) (by decide) (by decide) (by decide)
      (by decide) (by decide) (by decide),
   (dexRouter_slippage_reverts routerDemoEnv routerDemoWorld).2.2 9 6 1000 50 9
      (by decide) (by decide) (by decide) (by decide) (by decide) (by decide)
      (by decide) (by decide) (by decide)⟩

/-! ## Paymaster rate limiting -/

/-- C8: within the same fixed-size time bucket, an account whose accumulated
usage plus the new cost exceeds MAX_GAS_PER_HOUR is refused by both
`canPayForGas` (the spec's `canSponsor`) and `validatePaymasterUserOp`;
once the current bucket strictly exceeds the account's last-reset bucket the
limit no longer applies, so `canPayForGas` grants again provided the account
holds enough of either settlement asset at the configured rates, and the
usage counter is replaced (reset for the new window, not decayed) on the
next charge. -/
theorem paymaster_rate_limit_spec (s : PayState) (user cost : Nat) :
    (s.lastResetTime user / rateLimitPeriod = s.now / rateLimitPeriod →
      maxGasPerHour < s.userGasUsed user + cost →
      canPayForGas s user cost = false ∧
      validatePaymasterUserOp s user cost = 1) ∧
    (s.lastResetTime user / rateLimitPeriod < s.now / rateLimitPeriod →
      (cost * s.usdcToGasRate / 10 ^ 18 ≤ s.usdcBal user ∨
        cost * s.okbToGasRate / 10 ^ 18 ≤ s.okbBal user) →
      canPayForGas s user cost = true) ∧
    (s.lastResetTime user / rateLimitPeriod < s.now / rateLimitPeriod →
      (updateGasUsage s user cost).userGasUsed user = cost ∧
      (updateGasUsage s user cost).lastResetTime user = s.now) := by
  refine ⟨?_, ?_, ?_⟩
  · intro hsame hover
    have hlim : isRateLimited s user cost = true := by
      unfold isRateLimited
      dsimp only
      rw [hsame, if_neg (lt_irrefl _)]
      exact decide_eq_true hover
    constructor
    · unfold canPayForGas
      simp [hlim]
    · unfold validatePaymasterUserOp
      simp [hlim]
  · intro hnew hfunds
    have hlim : isRateLimited s user cost = false := by
      unfold isRateLimited
      dsimp only
      rw [if_pos hnew]
    unfold canPayForGas
    dsimp only
    rw [hlim]
    simp only [Bool.false_eq_true, if_false, ite_false]
    exact decide_eq_true hfunds
  · intro hnew
    unfold updateGasUsage
    dsimp only
    rw [if_pos hnew]
    constructor <;> simp

/-- C8 witness: at time 5400 s, account 9 (reset at 4000 s, same hour
bucket, usage at the full 0.01-ether cap) is refused for one more wei of
gas; account 8 (reset in the previous bucket, holding USDC) is granted, and
its usage counter restarts at the new cost. -/
theorem paymaster_rate_limit_spec_witness :
    (payDemoState.lastResetTime 9 / rateLimitPeriod =
        payDemoState.now / rateLimitPeriod ∧
      maxGasPerHour < payDemoState.userGasUsed 9 + 1 ∧
      canPayForGas payDemoState 9 1 = false ∧
      validatePaymasterUserOp payDemoState 9 1 = 1) ∧
    (payDemoState.lastResetTime 8 / rateLimitPeriod <
        payDemoState.now / rateLimitPeriod ∧
      canPayForGas payDemoState 8 1000 = true ∧
      (updateGasUsage payDemoState 8 1000).userGasUsed 8 = 1000) :=
  ⟨⟨by decide, by decide,
    ((paymaster_rate_limit_spec payDemoState 9 1).1 (by decide) (by decide)).1,
    ((paymaster_rate_limit_spec payDemoState 9 1).1 (by decide) (by decide)).2⟩,
   ⟨by decide,
    (paymaster_rate_limit_spec payDemoState 8 1000).2.1 (by decide) (by decide),
    ((paymaster_rate_limit_spec payDemoState 8 1000).2.2 (by decide)).1⟩⟩

end SyntheticStockDapp
